import Mathlib

/-!
Shallow embedding of libavcodec/v4l2_device.c (V4L2 video-device probing and
media-controller resolution).

The OS is modelled as an environment: a directory listing plus, for each
directory entry, the scripted outcome of the open and ioctl primitives.
File descriptors are tracked explicitly in an `FdState`: `open` hands out
`nextFd` and records it in `openFds`; `close` erases a descriptor from
`openFds` (erasing a value that is not there, such as a negative error code,
is a no-op, exactly as the OS rejects `close` on an invalid descriptor).
Errors follow the FFmpeg convention `AVERROR(e) = -e`.
-/

def AVERROR (e : Nat) : Int := -(e : Int)

/-- Character-list prefix test, structural so the kernel can evaluate it. -/
def charListBegins : List Char → List Char → Bool
  | [], _ => true
  | _ :: _, [] => false
  | c :: cs, d :: ds => c = d && charListBegins cs ds

/-- strncmp(s, p, strlen p) == 0: p is a character prefix of s. Both prefix
literals used by the source ("video", "media") have length 5, matching the
strncmp bound. -/
def strBeginsWith (p s : String) : Bool :=
  charListBegins p.data s.data

def EINVAL : Nat := 22

def ENOMEM : Nat := 12

/-- MEDIA_INTF_T_V4L_VIDEO from linux/media.h. -/
def MEDIA_INTF_T_V4L_VIDEO : Nat := 0x201

structure FdState where
  nextFd : Nat
  openFds : List Int
deriving DecidableEq

/-- Descriptor allocation: returns the fresh descriptor and the new state. -/
def allocFd (st : FdState) : Int × FdState :=
  ((st.nextFd : Int), ⟨st.nextFd + 1, (st.nextFd : Int) :: st.openFds⟩)

/-- close(fd): removes the descriptor from the open set; invalid descriptors
(negative, or not open) make this a no-op, as close then fails with EBADF. -/
def closeFd (fd : Int) (st : FdState) : FdState :=
  ⟨st.nextFd, st.openFds.erase fd⟩

/-- Well-formed descriptor state: every open descriptor was allocated in the
past, i.e. is below the allocation counter. -/
def FdState.WF (st : FdState) : Prop :=
  ∀ f ∈ st.openFds, f < (st.nextFd : Int)

instance (st : FdState) : Decidable st.WF :=
  inferInstanceAs (Decidable (∀ f ∈ st.openFds, f < (st.nextFd : Int)))

/-- A scripted errno is positive, as real OS errno values are. -/
def errnoPos : Option Nat → Bool
  | none => true
  | some n => decide (0 < n)

/-- struct v4l2_capability, kept as the fields the code treats as data. -/
structure v4l2_capability where
  driver : Nat
  card : Nat
  capabilities : Nat
deriving DecidableEq

def zeroCap : v4l2_capability := ⟨0, 0, 0⟩

/-- struct V4L2DeviceVideo from v4l2_device.h. -/
structure V4L2DeviceVideo where
  devname : String
  fd : Int
  capability : v4l2_capability
deriving DecidableEq

/-- One /dev entry as the video prober sees it: its name and the scripted
outcomes of open(2) and the VIDIOC_QUERYCAP ioctl. -/
structure VideoEnvEntry where
  d_name : String
  openErr : Option Nat
  querycapErr : Option Nat
  cap : v4l2_capability
deriving DecidableEq

def VideoEnvEntry.wf (e : VideoEnvEntry) : Bool :=
  errnoPos e.openErr && errnoPos e.querycapErr

instance {ε α : Type} [DecidableEq ε] [DecidableEq α] :
    DecidableEq (Except ε α) := fun a b =>
  match a, b with
  | Except.error e1, Except.error e2 =>
    if h : e1 = e2 then isTrue (by rw [h])
    else isFalse (by intro hh; cases hh; exact h rfl)
  | Except.error _, Except.ok _ => isFalse (by intro hh; cases hh)
  | Except.ok _, Except.error _ => isFalse (by intro hh; cases hh)
  | Except.ok a1, Except.ok a2 =>
    if h : a1 = a2 then isTrue (by rw [h])
    else isFalse (by intro hh; cases hh; exact h rfl)

/-- The environment of ff_v4l2_device_probe_video: the /dev listing, or the
errno with which opendir fails. -/
structure VideoEnv where
  dir : Except Nat (List VideoEnvEntry)
deriving DecidableEq

def VideoEnv.wf (env : VideoEnv) : Bool :=
  match env.dir with
  | Except.error err => decide (0 < err)
  | Except.ok entries => entries.all VideoEnvEntry.wf

/-- v4l2_device_open_video: open the node non-blocking, then QUERYCAP.
On open failure the capability argument is untouched; on ioctl failure the
freshly opened descriptor is closed and the capability is left zeroed by the
memset; on success the descriptor and the device capability are returned. -/
def v4l2_device_open_video (e : VideoEnvEntry) (cap : v4l2_capability)
    (st : FdState) : Int × v4l2_capability × FdState :=
  match e.openErr with
  | some err => (AVERROR err, cap, st)
  | none =>
    let fd := (allocFd st).1
    let st1 := (allocFd st).2
    match e.querycapErr with
    | some err => (AVERROR err, zeroCap, closeFd fd st1)
    | none => (fd, e.cap, st1)

/-- The readdir loop of ff_v4l2_device_probe_video, carrying the running
error code, the candidate structure and the descriptor state. -/
def probeLoop (checkdev : V4L2DeviceVideo → Bool) :
    List VideoEnvEntry → Int → V4L2DeviceVideo → FdState →
    Int × V4L2DeviceVideo × FdState
  | [], ret, tmpdev, st => (ret, tmpdev, st)
  | e :: rest, ret, tmpdev, st =>
    if strBeginsWith "video" e.d_name then
      let dev1 : V4L2DeviceVideo :=
        { tmpdev with devname := "/dev/" ++ e.d_name }
      let r := (v4l2_device_open_video e dev1.capability st).1
      let dev2 : V4L2DeviceVideo :=
        { dev1 with capability := (v4l2_device_open_video e dev1.capability st).2.1 }
      let st2 := (v4l2_device_open_video e dev1.capability st).2.2
      if r < 0 then
        probeLoop checkdev rest r dev2 st2
      else
        let dev3 : V4L2DeviceVideo := { dev2 with fd := r }
        if checkdev dev3 then
          (r, dev3, st2)
        else
          probeLoop checkdev rest (AVERROR EINVAL) dev3 (closeFd dev3.fd st2)
    else
      probeLoop checkdev rest ret tmpdev st

/-- ff_v4l2_device_probe_video. The caller-supplied output structure is an
explicit argument so that writes to it are visible; the result is the return
code, the final contents of the output structure, and the descriptor state. -/
def ff_v4l2_device_probe_video (env : VideoEnv)
    (checkdev : V4L2DeviceVideo → Bool) (device0 : V4L2DeviceVideo)
    (st : FdState) : Int × V4L2DeviceVideo × FdState :=
  match env.dir with
  | Except.error err => (AVERROR err, device0, st)
  | Except.ok entries =>
    let dirFd := (allocFd st).1
    let st1 := (allocFd st).2
    let tmpdev : V4L2DeviceVideo := { devname := "", fd := 0, capability := zeroCap }
    let res := probeLoop checkdev entries (AVERROR EINVAL) tmpdev st1
    let st3 := closeFd dirFd res.2.2
    if res.1 < 0 then (res.1, device0, st3) else (0, res.2.1, st3)

/-- struct media_device_info, as the data the code copies around. -/
structure media_device_info where
  model : Nat
  media_version : Nat
deriving DecidableEq

def zeroInfo : media_device_info := ⟨0, 0⟩

/-- struct media_v2_interface: the fields read by the matcher. -/
structure media_v2_interface where
  intf_type : Nat
  devnode_major : Nat
  devnode_minor : Nat
deriving DecidableEq

/-- struct V4L2DeviceMedia from v4l2_device.h. -/
structure V4L2DeviceMedia where
  devname : String
  fd : Int
  info : media_device_info
deriving DecidableEq

/-- One /dev entry as the media resolver sees it: scripted outcomes of
open(2), MEDIA_IOC_DEVICE_INFO, both MEDIA_IOC_G_TOPOLOGY calls, of the
av_mallocz of the interface array, and the topology interface records. -/
structure MediaEnvEntry where
  d_name : String
  openErr : Option Nat
  infoErr : Option Nat
  info : media_device_info
  topoErr1 : Option Nat
  allocFail : Bool
  topoErr2 : Option Nat
  interfaces : List media_v2_interface
deriving DecidableEq

def MediaEnvEntry.wf (e : MediaEnvEntry) : Bool :=
  errnoPos e.openErr && errnoPos e.infoErr && errnoPos e.topoErr1 &&
    errnoPos e.topoErr2

/-- The environment of ff_v4l2_device_retrieve_media: the fstat result on the
input video device (the (major, minor) identity of st_rdev, or an errno) and
the /dev listing. -/
structure MediaEnv where
  fstatRes : Except Nat (Nat × Nat)
  dir : Except Nat (List MediaEnvEntry)
deriving DecidableEq

def MediaEnv.wf (env : MediaEnv) : Bool :=
  (match env.fstatRes with
   | Except.error err => decide (0 < err)
   | Except.ok _ => true) &&
  (match env.dir with
   | Except.error err => decide (0 < err)
   | Except.ok entries => entries.all MediaEnvEntry.wf)

/-- v4l2_device_open_media: open the node blocking, then MEDIA_IOC_DEVICE_INFO;
same shape as v4l2_device_open_video. -/
def v4l2_device_open_media (e : MediaEnvEntry) (info : media_device_info)
    (st : FdState) : Int × media_device_info × FdState :=
  match e.openErr with
  | some err => (AVERROR err, info, st)
  | none =>
    let fd := (allocFd st).1
    let st1 := (allocFd st).2
    match e.infoErr with
    | some err => (AVERROR err, zeroInfo, closeFd fd st1)
    | none => (fd, e.info, st1)

/-- The interface scan at the end of v4l2_device_check_media: first record of
video type whose devnode identity equals the target gives 0, otherwise
AVERROR(EINVAL). -/
def v4l2_device_find_interface :
    List media_v2_interface → Nat → Nat → Int
  | [], _, _ => AVERROR EINVAL
  | i :: rest, ma, mi =>
    if i.intf_type ≠ MEDIA_INTF_T_V4L_VIDEO then
      v4l2_device_find_interface rest ma mi
    else if i.devnode_major = ma ∧ i.devnode_minor = mi then 0
    else v4l2_device_find_interface rest ma mi

/-- v4l2_device_check_media: size-probing MEDIA_IOC_G_TOPOLOGY, the
num_interfaces <= 0 check, av_mallocz of the interface array, the filling
MEDIA_IOC_G_TOPOLOGY, then the scan for a matching video interface.
The function touches no descriptors. -/
def v4l2_device_check_media (e : MediaEnvEntry)
    (video_major video_minor : Nat) : Int :=
  match e.topoErr1 with
  | some err => AVERROR err
  | none =>
    if e.interfaces.length ≤ 0 then AVERROR EINVAL
    else if e.allocFail then AVERROR ENOMEM
    else
      match e.topoErr2 with
      | some err => AVERROR err
      | none => v4l2_device_find_interface e.interfaces video_major video_minor

/-- The readdir loop of ff_v4l2_device_retrieve_media, carrying ret, fd,
devname, info and the descriptor state. Note the faithful translation of the
source bug at v4l2_device.c:213: on a check failure the code calls
close(ret) with ret holding the negative error code, not close(fd). -/
def retrieveLoop (ma mi : Nat) :
    List MediaEnvEntry → Int → Int → String → media_device_info → FdState →
    Int × Int × String × media_device_info × FdState
  | [], ret, fd, devname, info, st => (ret, fd, devname, info, st)
  | e :: rest, ret, fd, devname, info, st =>
    if strBeginsWith "media" e.d_name then
      let devname1 := "/dev/" ++ e.d_name
      let r := (v4l2_device_open_media e info st).1
      let info1 := (v4l2_device_open_media e info st).2.1
      let st1 := (v4l2_device_open_media e info st).2.2
      if r < 0 then
        retrieveLoop ma mi rest r fd devname1 info1 st1
      else
        let fd1 := r
        let r2 := v4l2_device_check_media e ma mi
        if r2 = 0 then
          (r2, fd1, devname1, info1, st1)
        else
          retrieveLoop ma mi rest r2 fd1 devname1 info1 (closeFd r2 st1)
    else
      retrieveLoop ma mi rest ret fd devname info st

/-- ff_v4l2_device_retrieve_media: fstat the input video device for its
(major, minor) identity, enumerate /dev for media nodes, accept the first
whose topology matches. The caller-supplied output structure is an explicit
argument; the result is the return code, the final contents of the output
structure, and the descriptor state. -/
def ff_v4l2_device_retrieve_media (env : MediaEnv)
    (media0 : V4L2DeviceMedia) (st : FdState) :
    Int × V4L2DeviceMedia × FdState :=
  match env.fstatRes with
  | Except.error err => (AVERROR err, media0, st)
  | Except.ok (ma, mi) =>
    match env.dir with
    | Except.error err => (AVERROR err, media0, st)
    | Except.ok entries =>
      let dirFd := (allocFd st).1
      let st1 := (allocFd st).2
      let res := retrieveLoop ma mi entries (AVERROR EINVAL) (-1) "" zeroInfo st1
      let st3 := closeFd dirFd res.2.2.2.2
      if res.1 < 0 then (res.1, media0, st3)
      else (0, ⟨res.2.2.1, res.2.1, res.2.2.2.1⟩, st3)

/-! ### Basic facts about error codes -/

theorem AVERROR_neg {e : Nat} (h : 0 < e) : AVERROR e < 0 := by
  simp only [AVERROR]
  omega

theorem AVERROR_nonpos (e : Nat) : AVERROR e ≤ 0 := by
  simp only [AVERROR]
  omega

theorem errnoPos_some {n : Nat} (h : errnoPos (some n) = true) : 0 < n := by
  simpa [errnoPos] using h

theorem find_interface_nonpos (l : List media_v2_interface) (ma mi : Nat) :
    v4l2_device_find_interface l ma mi ≤ 0 := by
  induction l with
  | nil => exact AVERROR_nonpos EINVAL
  | cons i rest ih =>
    simp only [v4l2_device_find_interface]
    split
    · exact ih
    · split
      · omega
      · exact ih

theorem check_media_nonpos (e : MediaEnvEntry) (ma mi : Nat) :
    v4l2_device_check_media e ma mi ≤ 0 := by
  simp only [v4l2_device_check_media]
  split
  · exact AVERROR_nonpos _
  · split
    · exact AVERROR_nonpos _
    · split
      · exact AVERROR_nonpos _
      · split
        · exact AVERROR_nonpos _
        · exact find_interface_nonpos _ _ _

/-! ### Claim C9: fatal identity-query and directory failures -/

/-- Claim C9: failure of the fstat identity query on the input video device
makes resolve return the OS error at once, before any controller candidate is
enumerated or opened (state and output untouched); likewise an unreadable
directory makes resolve, and probe, fail immediately with the OS error. -/
theorem fatal_identity_and_directory_failures (envm : MediaEnv)
    (media0 : V4L2DeviceMedia) (stm : FdState) (envv : VideoEnv)
    (checkdev : V4L2DeviceVideo → Bool) (device0 : V4L2DeviceVideo)
    (stv : FdState) :
    (∀ err, envm.fstatRes = Except.error err →
      ff_v4l2_device_retrieve_media envm media0 stm = (AVERROR err, media0, stm)) ∧
    (∀ err ma mi, envm.fstatRes = Except.ok (ma, mi) →
      envm.dir = Except.error err →
      ff_v4l2_device_retrieve_media envm media0 stm = (AVERROR err, media0, stm)) ∧
    (∀ err, envv.dir = Except.error err →
      ff_v4l2_device_probe_video envv checkdev device0 stv =
        (AVERROR err, device0, stv)) := by
  refine ⟨?_, ?_, ?_⟩
  · intro err h
    simp [ff_v4l2_device_retrieve_media, h]
  · intro err ma mi h1 h2
    simp [ff_v4l2_device_retrieve_media, h1, h2]
  · intro err h
    simp [ff_v4l2_device_probe_video, h]

/-- Witness for C9 at a concrete environment. -/
theorem fatal_identity_and_directory_failures_witness :
    ff_v4l2_device_retrieve_media ⟨Except.error 9, Except.ok []⟩ ⟨"", -1, ⟨0, 0⟩⟩
        ⟨0, []⟩ = (AVERROR 9, ⟨"", -1, ⟨0, 0⟩⟩, ⟨0, []⟩) ∧
    ff_v4l2_device_probe_video ⟨Except.error 13⟩ (fun _ => true) ⟨"", -1, zeroCap⟩
        ⟨0, []⟩ = (AVERROR 13, ⟨"", -1, zeroCap⟩, ⟨0, []⟩) :=
  ⟨(fatal_identity_and_directory_failures ⟨Except.error 9, Except.ok []⟩
      ⟨"", -1, ⟨0, 0⟩⟩ ⟨0, []⟩ ⟨Except.error 13⟩ (fun _ => true) ⟨"", -1, zeroCap⟩
      ⟨0, []⟩).1 9 rfl,
   (fatal_identity_and_directory_failures ⟨Except.error 9, Except.ok []⟩
      ⟨"", -1, ⟨0, 0⟩⟩ ⟨0, []⟩ ⟨Except.error 13⟩ (fun _ => true) ⟨"", -1, zeroCap⟩
      ⟨0, []⟩).2.2 13 rfl⟩

/-! ### Claim C10: outputs written only on success -/

/-- Claim C10: whenever probe or resolve returns a negative value, the
caller-supplied output structure comes back exactly as it went in; it is
written only on the zero-return path. -/
theorem outputs_unmodified_on_failure (envv : VideoEnv)
    (checkdev : V4L2DeviceVideo → Bool) (device0 : V4L2DeviceVideo)
    (stv : FdState) (envm : MediaEnv) (media0 : V4L2DeviceMedia)
    (stm : FdState) :
    ((ff_v4l2_device_probe_video envv checkdev device0 stv).1 < 0 →
      (ff_v4l2_device_probe_video envv checkdev device0 stv).2.1 = device0) ∧
    ((ff_v4l2_device_retrieve_media envm media0 stm).1 < 0 →
      (ff_v4l2_device_retrieve_media envm media0 stm).2.1 = media0) := by
  constructor
  · simp only [ff_v4l2_device_probe_video]
    split
    · intro _
      rfl
    · split
      · intro _
        rfl
      · intro h
        simp at h
  · simp only [ff_v4l2_device_retrieve_media]
    split
    · intro _
      rfl
    · split
      · intro _
        rfl
      · split
        · intro _
          rfl
        · intro h
          simp at h

/-- C10 witness: a probe over an empty listing and a resolve over an empty
listing both fail and hand back the output structures untouched. -/
theorem outputs_unmodified_on_failure_witness :
    (ff_v4l2_device_probe_video ⟨Except.ok []⟩ (fun _ => true) ⟨"x", 5, zeroCap⟩
        ⟨0, []⟩).1 < 0 ∧
    (ff_v4l2_device_probe_video ⟨Except.ok []⟩ (fun _ => true) ⟨"x", 5, zeroCap⟩
        ⟨0, []⟩).2.1 = ⟨"x", 5, zeroCap⟩ ∧
    (ff_v4l2_device_retrieve_media ⟨Except.ok (1, 2), Except.ok []⟩ ⟨"y", 7, ⟨0, 0⟩⟩
        ⟨0, []⟩).1 < 0 ∧
    (ff_v4l2_device_retrieve_media ⟨Except.ok (1, 2), Except.ok []⟩ ⟨"y", 7, ⟨0, 0⟩⟩
        ⟨0, []⟩).2.1 = ⟨"y", 7, ⟨0, 0⟩⟩ :=
  ⟨by decide,
   (outputs_unmodified_on_failure ⟨Except.ok []⟩ (fun _ => true) ⟨"x", 5, zeroCap⟩
      ⟨0, []⟩ ⟨Except.ok (1, 2), Except.ok []⟩ ⟨"y", 7, ⟨0, 0⟩⟩ ⟨0, []⟩).1 (by decide),
   by decide,
   (outputs_unmodified_on_failure ⟨Except.ok []⟩ (fun _ => true) ⟨"x", 5, zeroCap⟩
      ⟨0, []⟩ ⟨Except.ok (1, 2), Except.ok []⟩ ⟨"y", 7, ⟨0, 0⟩⟩ ⟨0, []⟩).2 (by decide)⟩

/-! ### Success characterization of the media resolver -/

theorem find_interface_zero_match (ma mi : Nat) :
    ∀ l : List media_v2_interface, v4l2_device_find_interface l ma mi = 0 →
      ∃ i ∈ l, i.intf_type = MEDIA_INTF_T_V4L_VIDEO ∧ i.devnode_major = ma ∧
        i.devnode_minor = mi := by
  intro l
  induction l with
  | nil =>
    intro h
    simp [v4l2_device_find_interface, AVERROR, EINVAL] at h
  | cons i rest ih =>
    intro h
    simp only [v4l2_device_find_interface] at h
    by_cases ht : i.intf_type = MEDIA_INTF_T_V4L_VIDEO
    · simp only [ht, ne_eq, not_true_eq_false, if_false] at h
      by_cases hm : i.devnode_major = ma ∧ i.devnode_minor = mi
      · exact ⟨i, List.mem_cons_self i rest, ht, hm.1, hm.2⟩
      · simp only [if_neg hm] at h
        obtain ⟨j, hj, hj2⟩ := ih h
        exact ⟨j, List.mem_cons_of_mem i hj, hj2⟩
    · simp only [ne_eq, ht, not_false_eq_true, if_true] at h
      obtain ⟨j, hj, hj2⟩ := ih h
      exact ⟨j, List.mem_cons_of_mem i hj, hj2⟩

theorem check_media_zero_match (e : MediaEnvEntry) (ma mi : Nat)
    (hwf : MediaEnvEntry.wf e = true)
    (h : v4l2_device_check_media e ma mi = 0) :
    ∃ i ∈ e.interfaces, i.intf_type = MEDIA_INTF_T_V4L_VIDEO ∧
      i.devnode_major = ma ∧ i.devnode_minor = mi := by
  simp only [MediaEnvEntry.wf, Bool.and_eq_true] at hwf
  simp only [v4l2_device_check_media] at h
  rcases h1 : e.topoErr1 with _ | err1
  · simp only [h1] at h
    by_cases hlen : e.interfaces.length ≤ 0
    · rw [if_pos hlen] at h
      simp [AVERROR, EINVAL] at h
    · rw [if_neg hlen] at h
      by_cases hal : e.allocFail = true
      · rw [if_pos hal] at h
        simp [AVERROR, ENOMEM] at h
      · rw [if_neg hal] at h
        rcases h2 : e.topoErr2 with _ | err2
        · simp only [h2] at h
          exact find_interface_zero_match ma mi _ h
        · simp only [h2] at h
          have hx := hwf.2
          rw [h2] at hx
          have := AVERROR_neg (errnoPos_some hx)
          omega
  · simp only [h1] at h
    have hx := hwf.1.2
    rw [h1] at hx
    have := AVERROR_neg (errnoPos_some hx)
    omega

theorem retrieveLoop_ret_nonpos (ma mi : Nat) (entries : List MediaEnvEntry) :
    ∀ (ret fd : Int) (devname : String) (info : media_device_info)
      (st : FdState), ret ≤ 0 →
      (retrieveLoop ma mi entries ret fd devname info st).1 ≤ 0 := by
  induction entries with
  | nil =>
    intro ret fd devname info st hle
    simpa only [retrieveLoop] using hle
  | cons e rest ih =>
    intro ret fd devname info st hle
    simp only [retrieveLoop]
    by_cases hp : strBeginsWith "media" e.d_name = true
    · simp only [hp, if_true]
      by_cases hr : (v4l2_device_open_media e info st).1 < 0
      · rw [if_pos hr]
        exact ih _ _ _ _ _ (by omega)
      · rw [if_neg hr]
        by_cases hz : v4l2_device_check_media e ma mi = 0
        · rw [if_pos hz]
          omega
        · rw [if_neg hz]
          exact ih _ _ _ _ _ (check_media_nonpos e ma mi)
    · simp only [hp, if_false]
      exact ih _ _ _ _ _ hle

theorem retrieveLoop_eq_zero (ma mi : Nat) (entries : List MediaEnvEntry) :
    ∀ (ret fd : Int) (devname : String) (info : media_device_info)
      (st : FdState), ret ≠ 0 →
      (retrieveLoop ma mi entries ret fd devname info st).1 = 0 →
      ∃ e ∈ entries, v4l2_device_check_media e ma mi = 0 ∧
        (retrieveLoop ma mi entries ret fd devname info st).2.2.1 =
          "/dev/" ++ e.d_name := by
  induction entries with
  | nil =>
    intro ret fd devname info st hne h0
    simp only [retrieveLoop] at h0
    exact absurd h0 hne
  | cons e rest ih =>
    intro ret fd devname info st hne h0
    simp only [retrieveLoop] at h0 ⊢
    by_cases hp : strBeginsWith "media" e.d_name = true
    · simp only [hp, if_true] at h0 ⊢
      by_cases hr : (v4l2_device_open_media e info st).1 < 0
      · rw [if_pos hr] at h0 ⊢
        obtain ⟨e2, hmem, hchk, hdev⟩ := ih _ _ _ _ _ (by omega) h0
        exact ⟨e2, List.mem_cons_of_mem e hmem, hchk, hdev⟩
      · rw [if_neg hr] at h0 ⊢
        by_cases hz : v4l2_device_check_media e ma mi = 0
        · rw [if_pos hz] at h0 ⊢
          exact ⟨e, List.mem_cons_self e rest, hz, rfl⟩
        · rw [if_neg hz] at h0 ⊢
          obtain ⟨e2, hmem, hchk, hdev⟩ := ih _ _ _ _ _ hz h0
          exact ⟨e2, List.mem_cons_of_mem e hmem, hchk, hdev⟩
    · simp only [hp, if_false] at h0 ⊢
      obtain ⟨e2, hmem, hchk, hdev⟩ := ih _ _ _ _ _ hne h0
      exact ⟨e2, List.mem_cons_of_mem e hmem, hchk, hdev⟩

/-- Core success characterization: a successful resolve accepted a listed
candidate whose topology holds a video-type interface carrying exactly the
identity fstat reported for the input video device. -/
theorem retrieve_media_success_core (env : MediaEnv) (media0 : V4L2DeviceMedia)
    (st : FdState) (hwf : MediaEnv.wf env = true)
    (h : (ff_v4l2_device_retrieve_media env media0 st).1 = 0) :
    ∃ ma mi entries e, env.fstatRes = Except.ok (ma, mi) ∧
      env.dir = Except.ok entries ∧ e ∈ entries ∧
      (ff_v4l2_device_retrieve_media env media0 st).2.1.devname =
        "/dev/" ++ e.d_name ∧
      ∃ i ∈ e.interfaces, i.intf_type = MEDIA_INTF_T_V4L_VIDEO ∧
        i.devnode_major = ma ∧ i.devnode_minor = mi := by
  simp only [MediaEnv.wf, Bool.and_eq_true] at hwf
  rcases hfs : env.fstatRes with errf | ⟨ma, mi⟩
  · rw [hfs] at hwf
    simp only [ff_v4l2_device_retrieve_media, hfs] at h
    have := AVERROR_neg (by simpa using hwf.1)
    omega
  · rcases hdir : env.dir with errd | entries
    · rw [hdir] at hwf
      simp only [ff_v4l2_device_retrieve_media, hfs, hdir] at h
      have := AVERROR_neg (by simpa using hwf.2)
      omega
    · rw [hdir] at hwf
      simp only [ff_v4l2_device_retrieve_media, hfs, hdir] at h ⊢
      by_cases hneg :
          (retrieveLoop ma mi entries (AVERROR EINVAL) (-1) "" zeroInfo
            (allocFd st).2).1 < 0
      · rw [if_pos hneg] at h
        omega
      · rw [if_neg hneg] at h ⊢
        have hle := retrieveLoop_ret_nonpos ma mi entries (AVERROR EINVAL) (-1)
          "" zeroInfo (allocFd st).2 (AVERROR_nonpos EINVAL)
        obtain ⟨e, hmem, hchk, hdev⟩ :=
          retrieveLoop_eq_zero ma mi entries (AVERROR EINVAL) (-1) "" zeroInfo
            (allocFd st).2 (by simp [AVERROR, EINVAL]) (by omega)
        have hewf : MediaEnvEntry.wf e = true :=
          List.all_eq_true.mp hwf.2 e hmem
        obtain ⟨i, hi, hi2⟩ := check_media_zero_match e ma mi hewf hchk
        exact ⟨ma, mi, entries, e, rfl, rfl, hmem, hdev, i, hi, hi2⟩

/-! ### Claim C1: the resolved controller topology matches the video identity -/

/-- Claim C1: whenever ff_v4l2_device_retrieve_media returns successfully, the
returned controller handle names a listed candidate whose topology contains at
least one interface record of video-device type whose (major, minor) pair
equals the (major, minor) identity fstat reported for the input video device;
resolve never succeeds without such a record. -/
theorem retrieve_media_success_has_matching_interface (env : MediaEnv)
    (media0 : V4L2DeviceMedia) (st : FdState) (hwf : MediaEnv.wf env = true)
    (h : (ff_v4l2_device_retrieve_media env media0 st).1 = 0) :
    ∃ ma mi entries e, env.fstatRes = Except.ok (ma, mi) ∧
      env.dir = Except.ok entries ∧ e ∈ entries ∧
      (ff_v4l2_device_retrieve_media env media0 st).2.1.devname =
        "/dev/" ++ e.d_name ∧
      ∃ i ∈ e.interfaces, i.intf_type = MEDIA_INTF_T_V4L_VIDEO ∧
        i.devnode_major = ma ∧ i.devnode_minor = mi :=
  retrieve_media_success_core env media0 st hwf h

def mediaOut0 : V4L2DeviceMedia := ⟨"", -1, ⟨0, 0⟩⟩

def envC1entry : MediaEnvEntry :=
  ⟨"media0", none, none, ⟨5, 7⟩, none, false, none,
    [⟨MEDIA_INTF_T_V4L_VIDEO, 81, 0⟩]⟩

def envC1 : MediaEnv := ⟨Except.ok (81, 0), Except.ok [envC1entry]⟩

/-- C1 witness at a concrete successful environment. -/
theorem retrieve_media_success_has_matching_interface_witness :
    MediaEnv.wf envC1 = true ∧
    (ff_v4l2_device_retrieve_media envC1 mediaOut0 ⟨0, []⟩).1 = 0 ∧
    (∃ ma mi entries e, envC1.fstatRes = Except.ok (ma, mi) ∧
      envC1.dir = Except.ok entries ∧ e ∈ entries ∧
      (ff_v4l2_device_retrieve_media envC1 mediaOut0 ⟨0, []⟩).2.1.devname =
        "/dev/" ++ e.d_name ∧
      ∃ i ∈ e.interfaces, i.intf_type = MEDIA_INTF_T_V4L_VIDEO ∧
        i.devnode_major = 81 ∧ i.devnode_minor = 0) := by
  refine ⟨by decide, by decide, ?_⟩
  obtain ⟨ma, mi, entries, e, hfs, hdir, hmem, hdev, hint⟩ :=
    retrieve_media_success_has_matching_interface envC1 mediaOut0 ⟨0, []⟩
      (by decide) (by decide)
  have hma : ma = 81 ∧ mi = 0 := by
    have : Except.ok (81, 0) = Except.ok ((ma : Nat), (mi : Nat)) := hfs
    simp_all
  exact ⟨ma, mi, entries, e, hfs, hdir, hmem, hdev,
    hma.1 ▸ hma.2 ▸ hint⟩

/-! ### Claim C6: empty-topology candidates are rejected, never returned -/

/-- Claim C6: a controller candidate whose topology size probe reports an
interface count at most zero is rejected with AVERROR(EINVAL); the loop then
continues with the remaining candidates; and a successful resolve never
returns such a candidate, since the accepted candidate always carries a
nonempty interface list. -/
theorem empty_topology_rejected (e : MediaEnvEntry) (rest : List MediaEnvEntry)
    (ma mi : Nat) (ret fd : Int) (devname : String) (info : media_device_info)
    (st : FdState) (h1 : e.topoErr1 = none) (h2 : e.interfaces.length ≤ 0) :
    v4l2_device_check_media e ma mi = AVERROR EINVAL ∧
    (strBeginsWith "media" e.d_name = true → e.openErr = none →
      e.infoErr = none →
      retrieveLoop ma mi (e :: rest) ret fd devname info st =
        retrieveLoop ma mi rest (AVERROR EINVAL) ((allocFd st).1)
          ("/dev/" ++ e.d_name) e.info
          (closeFd (AVERROR EINVAL) (allocFd st).2)) ∧
    (∀ env media0 stb, MediaEnv.wf env = true →
      (ff_v4l2_device_retrieve_media env media0 stb).1 = 0 →
      ∃ entries eAcc, env.dir = Except.ok entries ∧ eAcc ∈ entries ∧
        (ff_v4l2_device_retrieve_media env media0 stb).2.1.devname =
          "/dev/" ++ eAcc.d_name ∧ 0 < eAcc.interfaces.length) := by
  have hc : v4l2_device_check_media e ma mi = AVERROR EINVAL := by
    simp only [v4l2_device_check_media, h1]
    rw [if_pos h2]
  refine ⟨hc, ?_, ?_⟩
  · intro hp ho hi
    simp only [retrieveLoop, hp, if_true]
    simp only [v4l2_device_open_media, ho, hi]
    rw [if_neg (by simp only [allocFd]; omega)]
    rw [hc, if_neg (by decide)]
  · intro env media0 stb hwfe hsucc
    obtain ⟨ma2, mi2, entries, eAcc, _, hdir, hmem, hdev, i, hi, _⟩ :=
      retrieve_media_success_core env media0 stb hwfe hsucc
    exact ⟨entries, eAcc, hdir, hmem, hdev,
      List.length_pos.mpr (List.ne_nil_of_mem hi)⟩

def envC6entry : MediaEnvEntry :=
  ⟨"media0", none, none, ⟨3, 3⟩, none, false, none, []⟩

/-- C6 witness: a concrete empty-topology candidate is rejected and skipped,
and a concrete successful resolve returns a nonempty-topology candidate. -/
theorem empty_topology_rejected_witness :
    v4l2_device_check_media envC6entry 5 7 = AVERROR EINVAL ∧
    retrieveLoop 5 7 [envC6entry] (AVERROR EINVAL) (-1) "" zeroInfo ⟨1, [0]⟩ =
      retrieveLoop 5 7 [] (AVERROR EINVAL) ((allocFd ⟨1, [0]⟩).1) "/dev/media0"
        envC6entry.info (closeFd (AVERROR EINVAL) (allocFd ⟨1, [0]⟩).2) ∧
    (∃ entries eAcc, envC1.dir = Except.ok entries ∧ eAcc ∈ entries ∧
      (ff_v4l2_device_retrieve_media envC1 mediaOut0 ⟨0, []⟩).2.1.devname =
        "/dev/" ++ eAcc.d_name ∧ 0 < eAcc.interfaces.length) :=
  ⟨(empty_topology_rejected envC6entry [] 5 7 (AVERROR EINVAL) (-1) "" zeroInfo
      ⟨1, [0]⟩ rfl (by decide)).1,
   (empty_topology_rejected envC6entry [] 5 7 (AVERROR EINVAL) (-1) "" zeroInfo
      ⟨1, [0]⟩ rfl (by decide)).2.1 rfl rfl rfl,
   (empty_topology_rejected envC6entry [] 5 7 (AVERROR EINVAL) (-1) "" zeroInfo
      ⟨1, [0]⟩ rfl (by decide)).2.2 envC1 mediaOut0 ⟨0, []⟩ (by decide)
      (by decide)⟩

/-! ### Claim C4: allocation failure is not fatal (corrected) -/

def envC4a : MediaEnvEntry :=
  ⟨"media0", none, none, ⟨1, 1⟩, none, true, none,
    [⟨MEDIA_INTF_T_V4L_VIDEO, 99, 9⟩]⟩

def envC4b : MediaEnvEntry :=
  ⟨"media1", none, none, ⟨2, 2⟩, none, false, none,
    [⟨MEDIA_INTF_T_V4L_VIDEO, 81, 0⟩]⟩

def envC4 : MediaEnv := ⟨Except.ok (81, 0), Except.ok [envC4a, envC4b]⟩

/-- Counterexample to claim C4 as stated: the first controller candidate hits
an allocation failure, v4l2_device_check_media reports AVERROR(ENOMEM), yet
resolve does not propagate that error to the caller: it keeps enumerating and
succeeds on the second candidate. -/
theorem retrieve_media_alloc_failure_not_fatal :
    envC4a.allocFail = true ∧
    v4l2_device_check_media envC4a 81 0 = AVERROR ENOMEM ∧
    (ff_v4l2_device_retrieve_media envC4 mediaOut0 ⟨0, []⟩).1 = 0 ∧
    (ff_v4l2_device_retrieve_media envC4 mediaOut0 ⟨0, []⟩).2.1.devname =
      "/dev/media1" := by
  refine ⟨rfl, by decide, by decide, by decide⟩

/-- Claim C4 amended: an allocation failure while building the interface
sequence for a controller candidate makes v4l2_device_check_media return
AVERROR(ENOMEM), and resolve treats it like any other per-candidate check
failure: it records the error and continues enumerating the remaining
controller candidates instead of returning at once. -/
theorem retrieve_media_alloc_failure_soft (e : MediaEnvEntry)
    (rest : List MediaEnvEntry) (ma mi : Nat) (ret fd : Int) (devname : String)
    (info : media_device_info) (st : FdState) (ht : e.topoErr1 = none)
    (hn : 0 < e.interfaces.length) (ha : e.allocFail = true) :
    v4l2_device_check_media e ma mi = AVERROR ENOMEM ∧
    (strBeginsWith "media" e.d_name = true → e.openErr = none →
      e.infoErr = none →
      retrieveLoop ma mi (e :: rest) ret fd devname info st =
        retrieveLoop ma mi rest (AVERROR ENOMEM) ((allocFd st).1)
          ("/dev/" ++ e.d_name) e.info
          (closeFd (AVERROR ENOMEM) (allocFd st).2)) := by
  have hc : v4l2_device_check_media e ma mi = AVERROR ENOMEM := by
    simp only [v4l2_device_check_media, ht]
    rw [if_neg (by omega), if_pos ha]
  refine ⟨hc, ?_⟩
  intro hp ho hi
  simp only [retrieveLoop, hp, if_true]
  simp only [v4l2_device_open_media, ho, hi]
  rw [if_neg (by simp only [allocFd]; omega)]
  rw [hc, if_neg (by decide)]

/-- C4 witness for the amended statement, at a concrete candidate. -/
theorem retrieve_media_alloc_failure_soft_witness :
    v4l2_device_check_media envC4a 81 0 = AVERROR ENOMEM ∧
    retrieveLoop 81 0 [envC4a] (AVERROR EINVAL) (-1) "" zeroInfo ⟨1, [0]⟩ =
      retrieveLoop 81 0 [] (AVERROR ENOMEM) ((allocFd ⟨1, [0]⟩).1)
        "/dev/media0" envC4a.info (closeFd (AVERROR ENOMEM) (allocFd ⟨1, [0]⟩).2) :=
  ⟨(retrieve_media_alloc_failure_soft envC4a [] 81 0 (AVERROR EINVAL) (-1) ""
      zeroInfo ⟨1, [0]⟩ rfl (by decide) rfl).1,
   (retrieve_media_alloc_failure_soft envC4a [] 81 0 (AVERROR EINVAL) (-1) ""
      zeroInfo ⟨1, [0]⟩ rfl (by decide) rfl).2 rfl rfl rfl⟩

/-! ### Claim C8: per-candidate open and query failures are soft -/

/-- Claim C8: in both enumerations, a candidate whose open fails, or whose
capability/info query fails, is skipped: the loop records the error and
continues with the remaining candidates, never aborting the whole call. -/
theorem per_candidate_failures_soft (checkdev : V4L2DeviceVideo → Bool)
    (ev : VideoEnvEntry) (restV : List VideoEnvEntry) (retv : Int)
    (tmpdev : V4L2DeviceVideo) (stv : FdState) (em : MediaEnvEntry)
    (restM : List MediaEnvEntry) (ma mi : Nat) (retm fdm : Int) (dnm : String)
    (infom : media_device_info) (stm : FdState) :
    (∀ err, strBeginsWith "video" ev.d_name = true → ev.openErr = some err →
      0 < err →
      probeLoop checkdev (ev :: restV) retv tmpdev stv =
        probeLoop checkdev restV (AVERROR err)
          { tmpdev with devname := "/dev/" ++ ev.d_name } stv) ∧
    (∀ err, strBeginsWith "video" ev.d_name = true → ev.openErr = none →
      ev.querycapErr = some err → 0 < err →
      probeLoop checkdev (ev :: restV) retv tmpdev stv =
        probeLoop checkdev restV (AVERROR err)
          ⟨"/dev/" ++ ev.d_name, tmpdev.fd, zeroCap⟩
          (closeFd (allocFd stv).1 (allocFd stv).2)) ∧
    (∀ err, strBeginsWith "media" em.d_name = true → em.openErr = some err →
      0 < err →
      retrieveLoop ma mi (em :: restM) retm fdm dnm infom stm =
        retrieveLoop ma mi restM (AVERROR err) fdm ("/dev/" ++ em.d_name)
          infom stm) ∧
    (∀ err, strBeginsWith "media" em.d_name = true → em.openErr = none →
      em.infoErr = some err → 0 < err →
      retrieveLoop ma mi (em :: restM) retm fdm dnm infom stm =
        retrieveLoop ma mi restM (AVERROR err) fdm ("/dev/" ++ em.d_name)
          zeroInfo (closeFd (allocFd stm).1 (allocFd stm).2)) := by
  refine ⟨?_, ?_, ?_, ?_⟩
  · intro err hp ho herr
    simp only [probeLoop, hp, if_true]
    simp only [v4l2_device_open_video, ho]
    rw [if_pos (AVERROR_neg herr)]
  · intro err hp ho hq herr
    simp only [probeLoop, hp, if_true]
    simp only [v4l2_device_open_video, ho, hq]
    rw [if_pos (AVERROR_neg herr)]
  · intro err hp ho herr
    simp only [retrieveLoop, hp, if_true]
    simp only [v4l2_device_open_media, ho]
    rw [if_pos (AVERROR_neg herr)]
  · intro err hp ho hq herr
    simp only [retrieveLoop, hp, if_true]
    simp only [v4l2_device_open_media, ho, hq]
    rw [if_pos (AVERROR_neg herr)]

/-- C8 witness: concrete candidates whose open or query fails are skipped. -/
theorem per_candidate_failures_soft_witness :
    probeLoop (fun _ => true) [⟨"video0", some 2, none, zeroCap⟩] (AVERROR EINVAL)
        ⟨"", 0, zeroCap⟩ ⟨0, []⟩ =
      probeLoop (fun _ => true) [] (AVERROR 2) ⟨"/dev/video0", 0, zeroCap⟩
        ⟨0, []⟩ ∧
    probeLoop (fun _ => true) [⟨"video1", none, some 5, zeroCap⟩] (AVERROR EINVAL)
        ⟨"", 0, zeroCap⟩ ⟨0, []⟩ =
      probeLoop (fun _ => true) [] (AVERROR 5) ⟨"/dev/video1", 0, zeroCap⟩
        (closeFd (allocFd ⟨0, []⟩).1 (allocFd ⟨0, []⟩).2) ∧
    retrieveLoop 81 0 [⟨"media0", some 2, none, ⟨0, 0⟩, none, false, none, []⟩]
        (AVERROR EINVAL) (-1) "" zeroInfo ⟨0, []⟩ =
      retrieveLoop 81 0 [] (AVERROR 2) (-1) "/dev/media0" zeroInfo ⟨0, []⟩ ∧
    retrieveLoop 81 0 [⟨"media1", none, some 5, ⟨0, 0⟩, none, false, none, []⟩]
        (AVERROR EINVAL) (-1) "" zeroInfo ⟨0, []⟩ =
      retrieveLoop 81 0 [] (AVERROR 5) (-1) "/dev/media1" zeroInfo
        (closeFd (allocFd ⟨0, []⟩).1 (allocFd ⟨0, []⟩).2) :=
  ⟨(per_candidate_failures_soft (fun _ => true) ⟨"video0", some 2, none, zeroCap⟩
      [] (AVERROR EINVAL) ⟨"", 0, zeroCap⟩ ⟨0, []⟩
      ⟨"media0", some 2, none, ⟨0, 0⟩, none, false, none, []⟩ [] 81 0
      (AVERROR EINVAL) (-1) "" zeroInfo ⟨0, []⟩).1 2 rfl rfl (by decide),
   (per_candidate_failures_soft (fun _ => true) ⟨"video1", none, some 5, zeroCap⟩
      [] (AVERROR EINVAL) ⟨"", 0, zeroCap⟩ ⟨0, []⟩
      ⟨"media0", some 2, none, ⟨0, 0⟩, none, false, none, []⟩ [] 81 0
      (AVERROR EINVAL) (-1) "" zeroInfo ⟨0, []⟩).2.1 5 rfl rfl rfl (by decide),
   (per_candidate_failures_soft (fun _ => true) ⟨"video0", some 2, none, zeroCap⟩
      [] (AVERROR EINVAL) ⟨"", 0, zeroCap⟩ ⟨0, []⟩
      ⟨"media0", some 2, none, ⟨0, 0⟩, none, false, none, []⟩ [] 81 0
      (AVERROR EINVAL) (-1) "" zeroInfo ⟨0, []⟩).2.2.1 2 rfl rfl (by decide),
   (per_candidate_failures_soft (fun _ => true) ⟨"video0", some 2, none, zeroCap⟩
      [] (AVERROR EINVAL) ⟨"", 0, zeroCap⟩ ⟨0, []⟩
      ⟨"media1", none, some 5, ⟨0, 0⟩, none, false, none, []⟩ [] 81 0
      (AVERROR EINVAL) (-1) "" zeroInfo ⟨0, []⟩).2.2.2 5 rfl rfl rfl (by decide)⟩

/-! ### Claim C3: the rejected-candidate descriptor is leaked (code bug) -/

def envC3entry : MediaEnvEntry :=
  ⟨"media0", none, none, ⟨0, 0⟩, none, false, none,
    [⟨MEDIA_INTF_T_V4L_VIDEO, 81, 1⟩]⟩

def envC3 : MediaEnv := ⟨Except.ok (81, 0), Except.ok [envC3entry]⟩

/-- Claim C3 evaluated at its failing input. One controller candidate opens
fine (descriptor 1) but its topology holds no interface matching (81, 0), so
the claim demands that descriptor 1 be closed before the call returns. The
source instead executes close(ret) with ret = AVERROR(EINVAL)
(v4l2_device.c:213), a no-op on a negative descriptor, so the call returns
with descriptor 1 still open: only the directory descriptor 0 was closed. -/
theorem retrieve_media_leaks_rejected_descriptor :
    MediaEnv.wf envC3 = true ∧
    ff_v4l2_device_retrieve_media envC3 mediaOut0 ⟨0, []⟩ =
      (AVERROR EINVAL, mediaOut0, ⟨2, [1]⟩) ∧
    (1 : Int) ∈ (ff_v4l2_device_retrieve_media envC3 mediaOut0 ⟨0, []⟩).2.2.openFds := by
  refine ⟨by decide, by decide, by decide⟩

/-! ### Descriptor-state frame lemmas for the video prober -/

theorem FdState.WF_alloc {st : FdState} (h : st.WF) : (allocFd st).2.WF := by
  intro f hf
  simp only [allocFd, List.mem_cons] at hf
  rcases hf with rfl | hf
  · simp only [allocFd]
    push_cast
    omega
  · have := h f hf
    simp only [allocFd]
    push_cast
    omega

theorem FdState.WF_bump {st : FdState} (h : st.WF) :
    FdState.WF ⟨st.nextFd + 1, st.openFds⟩ := by
  intro f hf
  have := h f hf
  push_cast
  omega

theorem closeFd_alloc (st : FdState) :
    closeFd ((allocFd st).1) (allocFd st).2 = ⟨st.nextFd + 1, st.openFds⟩ := by
  simp [closeFd, allocFd]

/-- Frame property of the probe loop: starting from a well-formed descriptor
state and a negative running error, the loop keeps the state well formed and
monotone; on a negative outcome the open-descriptor list is exactly as it
started, and on acceptance it is exactly the accepted descriptor (a fresh one,
equal to the returned value and to the handle field) on top of the initial
list. -/
theorem probeLoop_frame (checkdev : V4L2DeviceVideo → Bool)
    (entries : List VideoEnvEntry) :
    ∀ (ret : Int) (tmpdev : V4L2DeviceVideo) (st : FdState),
      entries.all VideoEnvEntry.wf = true → st.WF → ret < 0 →
      st.nextFd ≤ (probeLoop checkdev entries ret tmpdev st).2.2.nextFd ∧
      (probeLoop checkdev entries ret tmpdev st).2.2.WF ∧
      ((probeLoop checkdev entries ret tmpdev st).1 < 0 →
        (probeLoop checkdev entries ret tmpdev st).2.2.openFds = st.openFds) ∧
      (0 ≤ (probeLoop checkdev entries ret tmpdev st).1 →
        (probeLoop checkdev entries ret tmpdev st).2.1.fd =
          (probeLoop checkdev entries ret tmpdev st).1 ∧
        (st.nextFd : Int) ≤ (probeLoop checkdev entries ret tmpdev st).2.1.fd ∧
        (probeLoop checkdev entries ret tmpdev st).2.2.openFds =
          (probeLoop checkdev entries ret tmpdev st).2.1.fd :: st.openFds) := by
  induction entries with
  | nil =>
    intro ret tmpdev st _ hst hret
    exact ⟨le_refl _, hst, fun _ => rfl,
      fun h => absurd (show (0 : Int) ≤ ret from h) (by omega)⟩
  | cons e rest ih =>
    intro ret tmpdev st hwf hst hret
    simp only [List.all_cons, Bool.and_eq_true] at hwf
    obtain ⟨hew, hrw⟩ := hwf
    simp only [VideoEnvEntry.wf, Bool.and_eq_true] at hew
    simp only [probeLoop]
    by_cases hp : strBeginsWith "video" e.d_name = true
    · simp only [hp, if_true]
      rcases ho : e.openErr with _ | err
      · simp only [v4l2_device_open_video, ho]
        rcases hq : e.querycapErr with _ | err2
        · simp only [hq]
          rw [if_neg (by simp only [allocFd]; omega)]
          by_cases hcd : checkdev
              { devname := "/dev/" ++ e.d_name, fd := (allocFd st).1,
                capability := e.cap } = true
          · rw [if_pos hcd]
            refine ⟨by simp only [allocFd]; omega, FdState.WF_alloc hst,
              fun hlt => absurd hlt (by simp only [allocFd]; omega),
              fun _ => ⟨rfl, by simp only [allocFd]; omega,
                by simp only [allocFd]⟩⟩
          · rw [if_neg hcd, closeFd_alloc]
            have hib := ih (AVERROR EINVAL)
              { devname := "/dev/" ++ e.d_name, fd := (allocFd st).1,
                capability := e.cap }
              ⟨st.nextFd + 1, st.openFds⟩ hrw (FdState.WF_bump hst)
              (AVERROR_neg (by simp [EINVAL]))
            have hx : ({ nextFd := st.nextFd + 1, openFds := st.openFds } :
                FdState).nextFd = st.nextFd + 1 := rfl
            obtain ⟨h1, h2, h3, h4⟩ := hib
            rw [hx] at h1
            refine ⟨by omega, h2, h3, ?_⟩
            intro hge
            obtain ⟨ha, hb, hc⟩ := h4 hge
            rw [hx] at hb
            exact ⟨ha, by push_cast at hb ⊢; omega, hc⟩
        · simp only [hq]
          have herr2 : 0 < err2 := by
            have := hew.2
            rw [hq] at this
            exact errnoPos_some this
          rw [if_pos (AVERROR_neg herr2), closeFd_alloc]
          have hib := ih (AVERROR err2)
            ⟨"/dev/" ++ e.d_name, tmpdev.fd, zeroCap⟩
            ⟨st.nextFd + 1, st.openFds⟩ hrw (FdState.WF_bump hst)
            (AVERROR_neg herr2)
          have hx : ({ nextFd := st.nextFd + 1, openFds := st.openFds } :
              FdState).nextFd = st.nextFd + 1 := rfl
          obtain ⟨h1, h2, h3, h4⟩ := hib
          rw [hx] at h1
          refine ⟨by omega, h2, h3, ?_⟩
          intro hge
          obtain ⟨ha, hb, hc⟩ := h4 hge
          rw [hx] at hb
          exact ⟨ha, by push_cast at hb ⊢; omega, hc⟩
      · simp only [v4l2_device_open_video, ho]
        have herr : 0 < err := by
          have := hew.1
          rw [ho] at this
          exact errnoPos_some this
        rw [if_pos (AVERROR_neg herr)]
        exact ih (AVERROR err) _ st hrw hst (AVERROR_neg herr)
    · simp only [hp, if_false]
      exact ih ret tmpdev st hrw hst hret

/-! ### Claim C7: probe descriptor discipline -/

/-- Claim C7: after probe returns, only the accepted candidate descriptor
remains open on top of the initial open set: success leaves exactly the
returned handle descriptor open, failure leaves the open set exactly as it
started (every rejected candidate descriptor was closed in the loop), and a
candidate whose capability query fails has its descriptor closed inside
v4l2_device_open_video itself. -/
theorem probe_video_descriptor_discipline (env : VideoEnv)
    (checkdev : V4L2DeviceVideo → Bool) (device0 : V4L2DeviceVideo)
    (st : FdState) (hwf : VideoEnv.wf env = true) (hst : st.WF) :
    ((ff_v4l2_device_probe_video env checkdev device0 st).1 = 0 →
      (ff_v4l2_device_probe_video env checkdev device0 st).2.2.openFds =
        (ff_v4l2_device_probe_video env checkdev device0 st).2.1.fd ::
          st.openFds) ∧
    ((ff_v4l2_device_probe_video env checkdev device0 st).1 < 0 →
      (ff_v4l2_device_probe_video env checkdev device0 st).2.2.openFds =
        st.openFds) ∧
    (∀ (e : VideoEnvEntry) (cap : v4l2_capability) (st2 : FdState) (err : Nat),
      e.querycapErr = some err →
      (v4l2_device_open_video e cap st2).2.2.openFds = st2.openFds) := by
  have hprim : ∀ (e : VideoEnvEntry) (cap : v4l2_capability) (st2 : FdState)
      (err : Nat), e.querycapErr = some err →
      (v4l2_device_open_video e cap st2).2.2.openFds = st2.openFds := by
    intro e cap st2 err hq
    rcases ho : e.openErr with _ | err2
    · simp only [v4l2_device_open_video, ho, hq, closeFd_alloc]
    · simp only [v4l2_device_open_video, ho]
  rcases hdir : env.dir with errd | entries
  · simp only [VideoEnv.wf, hdir] at hwf
    have herrd : 0 < errd := of_decide_eq_true hwf
    refine ⟨?_, ?_, hprim⟩
    · intro h0
      simp only [ff_v4l2_device_probe_video, hdir] at h0
      have := AVERROR_neg herrd
      omega
    · intro _
      simp only [ff_v4l2_device_probe_video, hdir]
  · simp only [VideoEnv.wf, hdir] at hwf
    obtain ⟨h1, h2, h3, h4⟩ := probeLoop_frame checkdev entries (AVERROR EINVAL)
      ⟨"", 0, zeroCap⟩ (allocFd st).2 hwf (FdState.WF_alloc hst)
      (AVERROR_neg (by simp [EINVAL]))
    simp only [ff_v4l2_device_probe_video, hdir]
    have halloc1 : (allocFd st).1 = (st.nextFd : Int) := rfl
    have halloc2 : (allocFd st).2.openFds = (st.nextFd : Int) :: st.openFds :=
      rfl
    by_cases hneg : (probeLoop checkdev entries (AVERROR EINVAL)
        ⟨"", 0, zeroCap⟩ (allocFd st).2).1 < 0
    · rw [if_pos hneg]
      refine ⟨?_, ?_, hprim⟩
      · intro h0
        exact absurd (show (probeLoop checkdev entries (AVERROR EINVAL)
          ⟨"", 0, zeroCap⟩ (allocFd st).2).1 = 0 from h0) (by omega)
      · intro _
        have hopen := h3 hneg
        simp only [closeFd, hopen, halloc1, halloc2]
        rw [List.erase_cons_head]
    · rw [if_neg hneg]
      obtain ⟨ha, hb, hc⟩ := h4 (by omega)
      have hfd : (st.nextFd : Int) <
          (probeLoop checkdev entries (AVERROR EINVAL) ⟨"", 0, zeroCap⟩
            (allocFd st).2).2.1.fd := by
        have hx : (allocFd st).2.nextFd = st.nextFd + 1 := rfl
        rw [hx] at hb
        push_cast at hb
        omega
      refine ⟨?_, ?_, hprim⟩
      · intro _
        simp only [closeFd, hc, halloc1, halloc2]
        rw [List.erase_cons_tail (by simp only [beq_iff_eq]; omega),
          List.erase_cons_head]
      · intro h
        simp at h

/-! ### Claim C2: probe returns the first accepted candidate -/

/-- The caller predicate is a pure decision on the candidate data: it does not
depend on which descriptor number the candidate happened to receive. -/
def fdIndep (checkdev : V4L2DeviceVideo → Bool) : Prop :=
  ∀ (n : String) (f1 f2 : Int) (c : v4l2_capability),
    checkdev ⟨n, f1, c⟩ = checkdev ⟨n, f2, c⟩

/-- Specification-side acceptance of one directory entry, following the
words of the spec: the name matches the prefix, open and capability query
succeed, and the predicate accepts the resulting candidate. -/
def acceptsEntry (checkdev : V4L2DeviceVideo → Bool) (e : VideoEnvEntry) :
    Bool :=
  strBeginsWith "video" e.d_name && e.openErr.isNone && e.querycapErr.isNone &&
    checkdev ⟨"/dev/" ++ e.d_name, 0, e.cap⟩

/-- Specification-side result: the first acceptable entry in listing order. -/
def probeSpecFirstAccepted (checkdev : V4L2DeviceVideo → Bool)
    (entries : List VideoEnvEntry) : Option VideoEnvEntry :=
  entries.find? (acceptsEntry checkdev)

theorem probeLoop_first_accepted (checkdev : V4L2DeviceVideo → Bool)
    (hind : fdIndep checkdev) (entries : List VideoEnvEntry) :
    ∀ (ret : Int) (tmpdev : V4L2DeviceVideo) (st : FdState),
      entries.all VideoEnvEntry.wf = true → ret < 0 →
      (probeSpecFirstAccepted checkdev entries = none →
        (probeLoop checkdev entries ret tmpdev st).1 < 0) ∧
      (∀ e, probeSpecFirstAccepted checkdev entries = some e →
        0 ≤ (probeLoop checkdev entries ret tmpdev st).1 ∧
        (probeLoop checkdev entries ret tmpdev st).2.1.devname =
          "/dev/" ++ e.d_name ∧
        (probeLoop checkdev entries ret tmpdev st).2.1.capability = e.cap ∧
        (probeLoop checkdev entries ret tmpdev st).2.1.fd =
          (probeLoop checkdev entries ret tmpdev st).1 ∧
        checkdev (probeLoop checkdev entries ret tmpdev st).2.1 = true) := by
  induction entries with
  | nil =>
    intro ret tmpdev st _ hret
    constructor
    · intro _
      exact hret
    · intro e he
      simp [probeSpecFirstAccepted] at he
  | cons e0 rest ih =>
    intro ret tmpdev st hwf hret
    simp only [List.all_cons, Bool.and_eq_true] at hwf
    obtain ⟨hew, hrw⟩ := hwf
    simp only [VideoEnvEntry.wf, Bool.and_eq_true] at hew
    by_cases hp : strBeginsWith "video" e0.d_name = true
    · rcases ho : e0.openErr with _ | err
      · rcases hq : e0.querycapErr with _ | err2
        · -- open and query succeed
          have hacc : acceptsEntry checkdev e0 =
              checkdev ⟨"/dev/" ++ e0.d_name, (allocFd st).1, e0.cap⟩ := by
            simp only [acceptsEntry, hp, ho, hq, Option.isNone_none,
              Bool.true_and, Bool.and_true]
            exact hind _ 0 _ _
          simp only [probeLoop, hp, if_true, v4l2_device_open_video, ho, hq]
          rw [if_neg (by simp only [allocFd]; omega)]
          by_cases hcd :
              checkdev ⟨"/dev/" ++ e0.d_name, (allocFd st).1, e0.cap⟩ = true
          · rw [if_pos hcd]
            have hfind : probeSpecFirstAccepted checkdev (e0 :: rest) = some e0 := by
              simp [probeSpecFirstAccepted, List.find?_cons, hacc, hcd]
            constructor
            · intro hn
              rw [hfind] at hn
              cases hn
            · intro e he
              rw [hfind] at he
              cases he
              exact ⟨by simp only [allocFd]; omega, rfl, rfl, rfl, hcd⟩
          · rw [if_neg hcd, closeFd_alloc]
            have hfind : probeSpecFirstAccepted checkdev (e0 :: rest) =
                probeSpecFirstAccepted checkdev rest := by
              simp [probeSpecFirstAccepted, List.find?_cons, hacc,
                Bool.not_eq_true _ ▸ hcd]
            rw [hfind]
            exact ih (AVERROR EINVAL) _ _ hrw (AVERROR_neg (by simp [EINVAL]))
        · -- capability query fails
          have hacc : acceptsEntry checkdev e0 = false := by
            simp [acceptsEntry, hq]
          have herr2 : 0 < err2 := by
            have := hew.2
            rw [hq] at this
            exact errnoPos_some this
          simp only [probeLoop, hp, if_true, v4l2_device_open_video, ho, hq]
          rw [if_pos (AVERROR_neg herr2), closeFd_alloc]
          have hfind : probeSpecFirstAccepted checkdev (e0 :: rest) =
              probeSpecFirstAccepted checkdev rest := by
            simp [probeSpecFirstAccepted, List.find?_cons, hacc]
          rw [hfind]
          exact ih (AVERROR err2) _ _ hrw (AVERROR_neg herr2)
      · -- open fails
        have hacc : acceptsEntry checkdev e0 = false := by
          simp [acceptsEntry, ho]
        have herr : 0 < err := by
          have := hew.1
          rw [ho] at this
          exact errnoPos_some this
        simp only [probeLoop, hp, if_true, v4l2_device_open_video, ho]
        rw [if_pos (AVERROR_neg herr)]
        have hfind : probeSpecFirstAccepted checkdev (e0 :: rest) =
            probeSpecFirstAccepted checkdev rest := by
          simp [probeSpecFirstAccepted, List.find?_cons, hacc]
        rw [hfind]
        exact ih (AVERROR err) _ _ hrw (AVERROR_neg herr)
    · have hacc : acceptsEntry checkdev e0 = false := by
        simp [acceptsEntry, hp]
      simp only [probeLoop, hp, if_false]
      have hfind : probeSpecFirstAccepted checkdev (e0 :: rest) =
          probeSpecFirstAccepted checkdev rest := by
        simp [probeSpecFirstAccepted, List.find?_cons, hacc]
      rw [hfind]
      exact ih ret _ _ hrw hret

def videoOut0 : V4L2DeviceVideo := ⟨"", -1, zeroCap⟩

def envC7 : VideoEnv :=
  ⟨Except.ok [⟨"video0", none, none, ⟨1, 0, 0⟩⟩,
    ⟨"video1", none, none, ⟨2, 0, 0⟩⟩]⟩

/-- C7 witness: concrete probe that rejects /dev/video0 and accepts
/dev/video1; afterwards exactly the accepted descriptor is open. -/
theorem probe_video_descriptor_discipline_witness :
    VideoEnv.wf envC7 = true ∧ FdState.WF ⟨0, []⟩ ∧
    (ff_v4l2_device_probe_video envC7 (fun d => decide (d.capability.driver = 2))
      videoOut0 ⟨0, []⟩).1 = 0 ∧
    (ff_v4l2_device_probe_video envC7 (fun d => decide (d.capability.driver = 2))
        videoOut0 ⟨0, []⟩).2.2.openFds =
      (ff_v4l2_device_probe_video envC7 (fun d => decide (d.capability.driver = 2))
        videoOut0 ⟨0, []⟩).2.1.fd :: ([] : List Int) :=
  ⟨by decide, by decide, by decide,
   (probe_video_descriptor_discipline envC7
      (fun d => decide (d.capability.driver = 2)) videoOut0 ⟨0, []⟩ (by decide)
      (by decide)).1 (by decide)⟩

/-- Claim C2: when the listing holds an acceptable candidate, probe returns 0
and the output handle carries exactly the first acceptable candidate (in
listing order): its path, its capability record, a nonnegative open
descriptor, and the predicate holds of the returned handle. -/
theorem probe_video_returns_first_accepted (env : VideoEnv)
    (checkdev : V4L2DeviceVideo → Bool) (device0 : V4L2DeviceVideo)
    (st : FdState) (entries : List VideoEnvEntry) (e : VideoEnvEntry)
    (hwf : VideoEnv.wf env = true) (hind : fdIndep checkdev)
    (hdir : env.dir = Except.ok entries)
    (hfirst : probeSpecFirstAccepted checkdev entries = some e) :
    (ff_v4l2_device_probe_video env checkdev device0 st).1 = 0 ∧
    (ff_v4l2_device_probe_video env checkdev device0 st).2.1.devname =
      "/dev/" ++ e.d_name ∧
    (ff_v4l2_device_probe_video env checkdev device0 st).2.1.capability =
      e.cap ∧
    0 ≤ (ff_v4l2_device_probe_video env checkdev device0 st).2.1.fd ∧
    checkdev (ff_v4l2_device_probe_video env checkdev device0 st).2.1 =
      true := by
  simp only [VideoEnv.wf, hdir] at hwf
  obtain ⟨hn, hs⟩ := probeLoop_first_accepted checkdev hind entries
    (AVERROR EINVAL) ⟨"", 0, zeroCap⟩ (allocFd st).2 hwf
    (AVERROR_neg (by simp [EINVAL]))
  obtain ⟨hge, hdev, hcap, hfd, hcd⟩ := hs e hfirst
  simp only [ff_v4l2_device_probe_video, hdir]
  rw [if_neg (by omega)]
  refine ⟨rfl, hdev, hcap, ?_, hcd⟩
  show 0 ≤ (probeLoop checkdev entries (AVERROR EINVAL) ⟨"", 0, zeroCap⟩
    (allocFd st).2).2.1.fd
  omega

def envC2entries : List VideoEnvEntry :=
  [⟨"tty0", none, none, ⟨9, 9, 9⟩⟩, ⟨"video0", none, none, ⟨1, 0, 0⟩⟩,
   ⟨"video1", none, none, ⟨2, 0, 0⟩⟩]

def envC2 : VideoEnv := ⟨Except.ok envC2entries⟩

/-- C2 witness: a listing with a non-matching name, a rejected candidate and
an accepted one; probe returns the accepted one with its data. -/
theorem probe_video_returns_first_accepted_witness :
    VideoEnv.wf envC2 = true ∧
    probeSpecFirstAccepted (fun d => decide (d.capability.driver = 2))
      envC2entries = some ⟨"video1", none, none, ⟨2, 0, 0⟩⟩ ∧
    ((ff_v4l2_device_probe_video envC2
        (fun d => decide (d.capability.driver = 2)) videoOut0 ⟨0, []⟩).1 = 0 ∧
      (ff_v4l2_device_probe_video envC2
        (fun d => decide (d.capability.driver = 2)) videoOut0
          ⟨0, []⟩).2.1.devname = "/dev/" ++ "video1" ∧
      (ff_v4l2_device_probe_video envC2
        (fun d => decide (d.capability.driver = 2)) videoOut0
          ⟨0, []⟩).2.1.capability = (⟨2, 0, 0⟩ : v4l2_capability) ∧
      0 ≤ (ff_v4l2_device_probe_video envC2
        (fun d => decide (d.capability.driver = 2)) videoOut0 ⟨0, []⟩).2.1.fd ∧
      (fun d => decide (d.capability.driver = 2))
        (ff_v4l2_device_probe_video envC2
          (fun d => decide (d.capability.driver = 2)) videoOut0 ⟨0, []⟩).2.1 =
        true) :=
  ⟨by decide, by decide,
   probe_video_returns_first_accepted envC2
     (fun d => decide (d.capability.driver = 2)) videoOut0 ⟨0, []⟩ envC2entries
     ⟨"video1", none, none, ⟨2, 0, 0⟩⟩ (by decide)
     (fun _ _ _ _ => rfl) rfl (by decide)⟩

/-! ### Claim C5: failure kind when the predicate rejects everything -/

def envC5entries : List VideoEnvEntry :=
  [⟨"video0", none, none, ⟨1, 1, 1⟩⟩, ⟨"video1", some 13, none, ⟨2, 2, 2⟩⟩]

def envC5 : VideoEnv := ⟨Except.ok envC5entries⟩

/-- Counterexample to claim C5 as stated: the predicate rejects every
candidate it is invoked on (it is constantly false), yet probe fails with
AVERROR(13), the open error of the last prefix-matching candidate, and not
with the NoSuitableDevice kind AVERROR(EINVAL): the running error variable is
overwritten by each failed open. -/
theorem probe_video_all_rejected_error_kind_cex :
    (ff_v4l2_device_probe_video envC5 (fun _ => false) videoOut0 ⟨0, []⟩).1 =
      AVERROR 13 ∧
    (ff_v4l2_device_probe_video envC5 (fun _ => false) videoOut0 ⟨0, []⟩).1 ≠
      AVERROR EINVAL := by
  refine ⟨by decide, by decide⟩

theorem probeLoop_all_rejected_clean (checkdev : V4L2DeviceVideo → Bool)
    (entries : List VideoEnvEntry) :
    ∀ (tmpdev : V4L2DeviceVideo) (st : FdState),
      (∀ e ∈ entries, strBeginsWith "video" e.d_name = true →
        e.openErr = none ∧ e.querycapErr = none) →
      (∀ d, checkdev d = false) →
      (probeLoop checkdev entries (AVERROR EINVAL) tmpdev st).1 =
        AVERROR EINVAL := by
  induction entries with
  | nil =>
    intro tmpdev st _ _
    rfl
  | cons e0 rest ih =>
    intro tmpdev st hok hrej
    by_cases hp : strBeginsWith "video" e0.d_name = true
    · obtain ⟨ho, hq⟩ := hok e0 (List.mem_cons_self e0 rest) hp
      simp only [probeLoop, hp, if_true, v4l2_device_open_video, ho, hq]
      rw [if_neg (by simp only [allocFd]; omega)]
      rw [if_neg (by simp [hrej])]
      exact ih _ _ (fun e he hp2 => hok e (List.mem_cons_of_mem e0 he) hp2) hrej
    · simp only [probeLoop, hp, if_false]
      exact ih _ _ (fun e he hp2 => hok e (List.mem_cons_of_mem e0 he) hp2) hrej

/-- Claim C5 amended: if the predicate rejects every candidate, probe fails
with a negative error and the directory descriptor is closed, restoring the
initial open-descriptor set; the error is the NoSuitableDevice kind
AVERROR(EINVAL) provided every prefix-matching candidate opened and queried
successfully, in particular when no entry matches the prefix; if the last
prefix-matching candidate failed its open or query, that OS error is what
probe returns instead. -/
theorem probe_video_all_rejected (env : VideoEnv)
    (checkdev : V4L2DeviceVideo → Bool) (device0 : V4L2DeviceVideo)
    (st : FdState) (entries : List VideoEnvEntry)
    (hwf : VideoEnv.wf env = true) (hst : st.WF)
    (hdir : env.dir = Except.ok entries) (hrej : ∀ d, checkdev d = false) :
    (ff_v4l2_device_probe_video env checkdev device0 st).1 < 0 ∧
    (ff_v4l2_device_probe_video env checkdev device0 st).2.2.openFds =
      st.openFds ∧
    ((∀ e ∈ entries, strBeginsWith "video" e.d_name = true →
        e.openErr = none ∧ e.querycapErr = none) →
      (ff_v4l2_device_probe_video env checkdev device0 st).1 =
        AVERROR EINVAL) := by
  simp only [VideoEnv.wf, hdir] at hwf
  have hind : fdIndep checkdev := fun n f1 f2 c => by rw [hrej, hrej]
  have hnone : probeSpecFirstAccepted checkdev entries = none := by
    rw [probeSpecFirstAccepted, List.find?_eq_none]
    intro x _
    simp [acceptsEntry, hrej]
  obtain ⟨hn, _⟩ := probeLoop_first_accepted checkdev hind entries
    (AVERROR EINVAL) ⟨"", 0, zeroCap⟩ (allocFd st).2 hwf
    (AVERROR_neg (by simp [EINVAL]))
  have hlt := hn hnone
  obtain ⟨h1, h2, h3, h4⟩ := probeLoop_frame checkdev entries (AVERROR EINVAL)
    ⟨"", 0, zeroCap⟩ (allocFd st).2 hwf (FdState.WF_alloc hst)
    (AVERROR_neg (by simp [EINVAL]))
  have halloc1 : (allocFd st).1 = (st.nextFd : Int) := rfl
  have halloc2 : (allocFd st).2.openFds = (st.nextFd : Int) :: st.openFds := rfl
  simp only [ff_v4l2_device_probe_video, hdir]
  rw [if_pos hlt]
  refine ⟨hlt, ?_, ?_⟩
  · have hopen := h3 hlt
    simp only [closeFd, hopen, halloc1, halloc2]
    rw [List.erase_cons_head]
  · intro hok
    exact probeLoop_all_rejected_clean checkdev entries ⟨"", 0, zeroCap⟩
      (allocFd st).2 hok hrej

def envC5w : VideoEnv := ⟨Except.ok [⟨"video0", none, none, ⟨1, 1, 1⟩⟩]⟩

/-- C5 witness for the amended statement: every candidate opens and queries
fine, the predicate rejects all, probe returns AVERROR(EINVAL) with the
descriptor state restored. -/
theorem probe_video_all_rejected_witness :
    VideoEnv.wf envC5w = true ∧ FdState.WF ⟨0, []⟩ ∧
    (ff_v4l2_device_probe_video envC5w (fun _ => false) videoOut0 ⟨0, []⟩).1 <
      0 ∧
    (ff_v4l2_device_probe_video envC5w (fun _ => false) videoOut0
      ⟨0, []⟩).2.2.openFds = ([] : List Int) ∧
    (ff_v4l2_device_probe_video envC5w (fun _ => false) videoOut0 ⟨0, []⟩).1 =
      AVERROR EINVAL :=
  ⟨by decide, by decide,
   (probe_video_all_rejected envC5w (fun _ => false) videoOut0 ⟨0, []⟩
      [⟨"video0", none, none, ⟨1, 1, 1⟩⟩] (by decide) (by decide) rfl
      (fun _ => rfl)).1,
   (probe_video_all_rejected envC5w (fun _ => false) videoOut0 ⟨0, []⟩
      [⟨"video0", none, none, ⟨1, 1, 1⟩⟩] (by decide) (by decide) rfl
      (fun _ => rfl)).2.1,
   (probe_video_all_rejected envC5w (fun _ => false) videoOut0 ⟨0, []⟩
      [⟨"video0", none, none, ⟨1, 1, 1⟩⟩] (by decide) (by decide) rfl
      (fun _ => rfl)).2.2 (by decide)⟩
